import Mathlib

/-!
Shallow embedding of the India E-Waste Map backend (`app.py`, `models.py`).

The backend is a Flask CRUD layer over a `Marker` table plus a role-gated
auth layer.  We embed:

* JSON field values delivered by `request.get_json()` as `PyVal`
  (numbers become exact rationals, which agrees with the source's
  comparisons on all inputs relevant here);
* Python's `float(·)` coercion as `pyFloat?` (numbers, booleans, and a
  decimal string parser; `None` or other values raise and are caught by
  the handler's `except (ValueError, TypeError)`);
* the marker table as an insertion-ordered list with an auto-increment
  primary-key counter (`Store`);
* each route handler as a pure state-passing function; an uncaught
  Python exception inside a handler is modelled as the `serverError`
  outcome (HTTP 500), which is what Flask produces for it;
* `datetime.utcnow()` as an explicit `now : Nat` argument, and
  `random.uniform(-0.02, 0.02)` in the seeder as explicit rational
  jitter arguments.
-/

/-- A JSON field value as Python sees it after `request.get_json()`. -/
inductive PyVal where
  | pnull
  | str (s : String)
  | num (q : ℚ)
  | boolean (b : Bool)
  deriving Repr, DecidableEq

/-- Python `str.strip()`: drop whitespace from both ends.  (Implemented on
the character list so that it is kernel-reducible; `String.trim` is not.) -/
def pyStrip (s : String) : String :=
  String.mk (((s.toList.dropWhile Char.isWhitespace).reverse.dropWhile Char.isWhitespace).reverse)

/-- Digits-only string to `Nat`; `none` if empty or a non-digit occurs. -/
def natOfDigits? (cs : List Char) : Option Nat :=
  if cs.isEmpty then none
  else cs.foldlM (fun acc c => if c.isDigit then some (acc * 10 + (c.toNat - 48)) else none) 0

/-- Python `float(s)` on a string: optional surrounding whitespace, optional
sign, decimal digits with at most one point (`"1."` and `".5"` are accepted,
`"."` and `""` are not).  Exponent and inf/nan forms are not exercised by the
code paths under verification. -/
def pyFloatOfString? (s : String) : Option ℚ :=
  let cs := (pyStrip s).toList
  let signed : ℚ × List Char :=
    match cs with
    | '-' :: r => (-1, r)
    | '+' :: r => (1, r)
    | r => (1, r)
  match signed.2.splitOn '.' with
  | [intPart] => (natOfDigits? intPart).map (fun n => signed.1 * n)
  | [intPart, fracPart] =>
    if intPart.isEmpty && fracPart.isEmpty then none
    else
      match natOfDigits? (if intPart.isEmpty then ['0'] else intPart),
            (if fracPart.isEmpty then some 0 else natOfDigits? fracPart) with
      | some i, some f =>
        some (signed.1 * ((i : ℚ) + (f : ℚ) / ((10 : ℚ) ^ fracPart.length)))
      | _, _ => none
  | _ => none

/-- Python `float(v)` under `except (ValueError, TypeError)`: numbers and
booleans convert, strings parse or fail, `None` raises `TypeError` (caught). -/
def pyFloat? : PyVal → Option ℚ
  | PyVal.num q => some q
  | PyVal.boolean b => some (if b then 1 else 0)
  | PyVal.str s => pyFloatOfString? s
  | PyVal.pnull => none

/-- India bounding box, `INDIA_BOUNDS` in `app.py`. -/
structure Bounds where
  min_lat : ℚ
  max_lat : ℚ
  min_lng : ℚ
  max_lng : ℚ
  deriving Repr, DecidableEq

/-- The literals 6.5, 35.7, 68.1, 97.4 from `app.py`, written with `mkRat`
(kernel-reducible, unlike the `OfScientific` decimal-literal elaboration). -/
def INDIA_BOUNDS : Bounds :=
  { min_lat := mkRat 65 10, max_lat := mkRat 357 10,
    min_lng := mkRat 681 10, max_lng := mkRat 974 10 }

/-- `is_point_in_india(lat, lng)` from `app.py`: the rectangular bounds check. -/
def is_point_in_india (lat lng : ℚ) : Bool :=
  (decide (INDIA_BOUNDS.min_lat ≤ lat) && decide (lat ≤ INDIA_BOUNDS.max_lat)) &&
  (decide (INDIA_BOUNDS.min_lng ≤ lng) && decide (lng ≤ INDIA_BOUNDS.max_lng))

/-- The `Marker` model from `models.py`. `created_at` is the (abstract)
creation timestamp. -/
structure Marker where
  id : Nat
  lat : ℚ
  lng : ℚ
  state : String
  city : String
  locality : String
  category : String
  contact : String
  is_active : Bool
  created_at : Nat
  deriving Repr, DecidableEq

/-- `Marker.to_dict` serialization target: the flat JSON record. The
`isoformat()` rendering of the timestamp is abstracted to the timestamp
itself; the `None` branch of `to_dict` corresponds to `created_at := none`. -/
structure MarkerJson where
  id : Nat
  lat : ℚ
  lng : ℚ
  state : String
  city : String
  locality : String
  category : String
  contact : String
  is_active : Bool
  created_at : Option Nat
  deriving Repr, DecidableEq

/-- `Marker.to_dict` from `models.py`. -/
def Marker.to_dict (m : Marker) : MarkerJson :=
  { id := m.id, lat := m.lat, lng := m.lng, state := m.state, city := m.city,
    locality := m.locality, category := m.category, contact := m.contact,
    is_active := m.is_active, created_at := some m.created_at }

/-- The `markers` table: rows in insertion order plus the auto-increment
primary-key counter. -/
structure Store where
  markers : List Marker
  nextId : Nat
  deriving Repr, DecidableEq

/-- The `User` model from `models.py` (the password hash is opaque data). -/
structure UserRec where
  id : Nat
  username : String
  password_hash : String
  role : String
  deriving Repr, DecidableEq

/-- `User.is_admin` property: `role == 'admin'`. -/
def UserRec.is_admin (u : UserRec) : Bool := u.role == "admin"

/-- The `users` table. -/
structure UserStore where
  users : List UserRec
  nextUid : Nat
  deriving Repr, DecidableEq

/-- `required_fields` in `create_marker`. -/
def requiredFields : List String :=
  ["lat", "lng", "state", "city", "locality", "category", "contact"]

/-- `valid_categories` in `create_marker`. -/
def validCategories : List String := ["large", "small", "devices"]

/-- Dict key lookup (`k in data` is `hasField`; JSON objects become Python
dicts, so later duplicate keys would already have been collapsed). -/
def findField (data : List (String × PyVal)) (k : String) : Option PyVal :=
  (data.find? (fun p => p.1 == k)).map Prod.snd

/-- `data[k]`, used only where the missing-fields check has ensured presence
(the `pnull` default is then never taken). -/
def fieldVal (data : List (String × PyVal)) (k : String) : PyVal :=
  (findField data k).getD PyVal.pnull

/-- `missing_fields = [field for field in required_fields if field not in data]`. -/
def missingFields (data : List (String × PyVal)) : List String :=
  requiredFields.filter (fun f => (findField data f).isNone)

/-- `data['category'] not in valid_categories` negated: a Python `in` test of
a value against a list of `str` is true only for an equal `str`. -/
def pyValInCategories (v : PyVal) : Bool :=
  match v with
  | PyVal.str s => validCategories.contains s
  | _ => false

/-- Outcome of the `create_marker` handler body (after the auth decorators). -/
inductive CreateOutcome where
  | badRequest (msg : String)
  | created (m : Marker)
  | serverError
  deriving Repr, DecidableEq

/-- `create_marker` from `app.py` (body of the POST `/api/markers` handler,
after `@login_required` / `@admin_required`).  `body = none` models a JSON
literal `null` body: `field not in data` then raises an uncaught `TypeError`,
which Flask surfaces as HTTP 500 (`serverError`).  A present but non-string
`state`/`city`/`locality`/`contact` makes `.strip()` raise an uncaught
`AttributeError`, likewise `serverError`. -/
def create_marker (now : Nat) (st : Store) (body : Option (List (String × PyVal))) :
    CreateOutcome × Store :=
  match body with
  | none => (CreateOutcome.serverError, st)
  | some data =>
    let missing := missingFields data
    if ¬ missing.isEmpty then
      (CreateOutcome.badRequest ("Missing required fields: " ++ String.intercalate ", " missing), st)
    else
      match pyFloat? (fieldVal data "lat"), pyFloat? (fieldVal data "lng") with
      | some lat, some lng =>
        if ¬ is_point_in_india lat lng then
          (CreateOutcome.badRequest "Location must be within India boundaries", st)
        else if ¬ pyValInCategories (fieldVal data "category") then
          (CreateOutcome.badRequest
            ("Invalid category. Must be one of: " ++ String.intercalate ", " validCategories), st)
        else
          match fieldVal data "state", fieldVal data "city", fieldVal data "locality",
                fieldVal data "contact", fieldVal data "category" with
          | PyVal.str s, PyVal.str ci, PyVal.str lo, PyVal.str co, PyVal.str c =>
            let m : Marker :=
              { id := st.nextId, lat := lat, lng := lng, state := pyStrip s,
                city := pyStrip ci, locality := pyStrip lo, category := c,
                contact := pyStrip co, is_active := true, created_at := now }
            (CreateOutcome.created m, { st with markers := st.markers ++ [m], nextId := st.nextId + 1 })
          | _, _, _, _, _ => (CreateOutcome.serverError, st)
      | _, _ =>
        (CreateOutcome.badRequest "Invalid coordinates: lat and lng must be numbers", st)

/-- Outcome of `delete_marker`. -/
inductive DeleteOutcome where
  | notFound
  | deleted
  deriving Repr, DecidableEq

/-- `delete_marker` from `app.py`: `Marker.query.get(marker_id)` then
`db.session.delete` of that row. -/
def delete_marker (st : Store) (marker_id : Nat) : DeleteOutcome × Store :=
  match st.markers.find? (fun m => m.id == marker_id) with
  | none => (DeleteOutcome.notFound, st)
  | some _ =>
    (DeleteOutcome.deleted,
      { st with markers := st.markers.eraseP (fun m => m.id == marker_id) })

/-- Outcome of `shutdown_marker` / `reactivate_marker`. -/
inductive UpdateOutcome where
  | notFound
  | updated (m : Marker)
  deriving Repr, DecidableEq

/-- Set `is_active := b` on the row `Marker.query.get` finds (the first row
with the given primary key). -/
def setActiveFirst (marker_id : Nat) (b : Bool) : List Marker → List Marker
  | [] => []
  | m :: ms =>
    if m.id == marker_id then { m with is_active := b } :: ms
    else m :: setActiveFirst marker_id b ms

/-- `shutdown_marker` from `app.py`. -/
def shutdown_marker (st : Store) (marker_id : Nat) : UpdateOutcome × Store :=
  match st.markers.find? (fun m => m.id == marker_id) with
  | none => (UpdateOutcome.notFound, st)
  | some m =>
    (UpdateOutcome.updated { m with is_active := false },
      { st with markers := setActiveFirst marker_id false st.markers })

/-- `reactivate_marker` from `app.py`. -/
def reactivate_marker (st : Store) (marker_id : Nat) : UpdateOutcome × Store :=
  match st.markers.find? (fun m => m.id == marker_id) with
  | none => (UpdateOutcome.notFound, st)
  | some m =>
    (UpdateOutcome.updated { m with is_active := true },
      { st with markers := setActiveFirst marker_id true st.markers })

/-- GET `/api/markers` with its `@login_required` gate: 200 and all rows
serialized via `to_dict`; an unauthenticated caller is redirected (302). -/
def getMarkersRoute (cu : Option UserRec) (st : Store) : Nat × List MarkerJson :=
  match cu with
  | none => (302, [])
  | some _ => (200, st.markers.map Marker.to_dict)

/-- POST `/api/markers` with `@login_required` and `@admin_required`:
the status code the client sees, and the store afterwards. -/
def postMarkersRoute (cu : Option UserRec) (now : Nat) (st : Store)
    (body : Option (List (String × PyVal))) : Nat × Store :=
  match cu with
  | none => (302, st)
  | some u =>
    if ¬ u.is_admin then (403, st)
    else
      match create_marker now st body with
      | (CreateOutcome.created _, st') => (201, st')
      | (CreateOutcome.badRequest _, st') => (400, st')
      | (CreateOutcome.serverError, st') => (500, st')

/-- DELETE `/api/markers/{id}` with both auth decorators. -/
def deleteMarkerRoute (cu : Option UserRec) (st : Store) (marker_id : Nat) : Nat × Store :=
  match cu with
  | none => (302, st)
  | some u =>
    if ¬ u.is_admin then (403, st)
    else
      match delete_marker st marker_id with
      | (DeleteOutcome.notFound, st') => (404, st')
      | (DeleteOutcome.deleted, st') => (200, st')

/-- PUT `/api/markers/{id}/shutdown` with both auth decorators. -/
def shutdownMarkerRoute (cu : Option UserRec) (st : Store) (marker_id : Nat) : Nat × Store :=
  match cu with
  | none => (302, st)
  | some u =>
    if ¬ u.is_admin then (403, st)
    else
      match shutdown_marker st marker_id with
      | (UpdateOutcome.notFound, st') => (404, st')
      | (UpdateOutcome.updated _, st') => (200, st')

/-- PUT `/api/markers/{id}/reactivate` with both auth decorators. -/
def reactivateMarkerRoute (cu : Option UserRec) (st : Store) (marker_id : Nat) : Nat × Store :=
  match cu with
  | none => (302, st)
  | some u =>
    if ¬ u.is_admin then (403, st)
    else
      match reactivate_marker st marker_id with
      | (UpdateOutcome.notFound, st') => (404, st')
      | (UpdateOutcome.updated _, st') => (200, st')

/-- `base_lat = 18.5204` in `seed_demo_markers`. -/
def base_lat : ℚ := mkRat 185204 10000

/-- `base_lng = 73.8567` in `seed_demo_markers`. -/
def base_lng : ℚ := mkRat 738567 10000

/-- `seed_demo_markers` from `models.py`.  The two `random.uniform(-0.02,
0.02)` draws per marker are the explicit jitter arguments `j1..j4`; `now` is
the `created_at` default timestamp. -/
def seed_demo_markers (j1 j2 j3 j4 : ℚ) (now : Nat) (st : Store) : Store :=
  if st.markers.length == 0 then
    let m1 : Marker :=
      { id := st.nextId, lat := base_lat + j1, lng := base_lng + j2,
        state := "Maharashtra", city := "Pune", locality := "Kothrud",
        category := "large", contact := "+91 98765 43210",
        is_active := true, created_at := now }
    let m2 : Marker :=
      { id := st.nextId + 1, lat := base_lat + j3, lng := base_lng + j4,
        state := "Maharashtra", city := "Pune", locality := "Shivaji Nagar",
        category := "devices", contact := "+91 87654 32109",
        is_active := true, created_at := now }
    { st with markers := st.markers ++ [m1, m2], nextId := st.nextId + 2 }
  else st

/-- `generate_password_hash`: an opaque one-way hash capability (the library
call is external to the core; only its output's opacity matters here). -/
def generate_password_hash (password : String) : String := "pbkdf2-sha256$" ++ password

/-- `seed_users` from `models.py`. -/
def seed_users (ust : UserStore) : UserStore :=
  if ust.users.length == 0 then
    { ust with
      users := ust.users ++
        [ { id := ust.nextUid, username := "admin",
            password_hash := generate_password_hash "admin123", role := "admin" },
          { id := ust.nextUid + 1, username := "user",
            password_hash := generate_password_hash "user123", role := "user" } ],
      nextUid := ust.nextUid + 2 }
  else ust

/-! ## Unfolding lemmas for the `create_marker` validation cascade -/

theorem create_marker_missing (now : Nat) (st : Store) (data : List (String × PyVal))
    (hm : missingFields data ≠ []) :
    create_marker now st (some data) =
      (CreateOutcome.badRequest
        ("Missing required fields: " ++ String.intercalate ", " (missingFields data)), st) := by
  have h : ¬ (missingFields data).isEmpty = true := by
    simpa [List.isEmpty_iff] using hm
  simp only [create_marker]
  rw [if_pos h]

theorem create_marker_badcoords (now : Nat) (st : Store) (data : List (String × PyVal))
    (hm : missingFields data = [])
    (hc : pyFloat? (fieldVal data "lat") = none ∨ pyFloat? (fieldVal data "lng") = none) :
    create_marker now st (some data) =
      (CreateOutcome.badRequest "Invalid coordinates: lat and lng must be numbers", st) := by
  have h0 : (missingFields data).isEmpty = true := by rw [hm]; rfl
  simp only [create_marker, h0, not_true_eq_false, if_false]
  rcases hc with hc | hc
  · rw [hc]
  · rw [hc]
    rcases pyFloat? (fieldVal data "lat") with _ | lat <;> rfl

theorem create_marker_outside (now : Nat) (st : Store) (data : List (String × PyVal))
    (lat lng : ℚ)
    (hm : missingFields data = [])
    (hla : pyFloat? (fieldVal data "lat") = some lat)
    (hln : pyFloat? (fieldVal data "lng") = some lng)
    (hout : is_point_in_india lat lng = false) :
    create_marker now st (some data) =
      (CreateOutcome.badRequest "Location must be within India boundaries", st) := by
  have h0 : (missingFields data).isEmpty = true := by rw [hm]; rfl
  simp only [create_marker, h0, not_true_eq_false, if_false, hla, hln, hout]
  rfl

theorem create_marker_badcat (now : Nat) (st : Store) (data : List (String × PyVal))
    (lat lng : ℚ)
    (hm : missingFields data = [])
    (hla : pyFloat? (fieldVal data "lat") = some lat)
    (hln : pyFloat? (fieldVal data "lng") = some lng)
    (hin : is_point_in_india lat lng = true)
    (hcat : pyValInCategories (fieldVal data "category") = false) :
    create_marker now st (some data) =
      (CreateOutcome.badRequest
        ("Invalid category. Must be one of: " ++ String.intercalate ", " validCategories), st) := by
  have h0 : (missingFields data).isEmpty = true := by rw [hm]; rfl
  simp only [create_marker, h0, not_true_eq_false, if_false, hla, hln, hin, hcat]
  rfl

theorem create_marker_success (now : Nat) (st : Store) (data : List (String × PyVal))
    (lat lng : ℚ) (s ci lo co c : String)
    (hm : missingFields data = [])
    (hla : pyFloat? (fieldVal data "lat") = some lat)
    (hln : pyFloat? (fieldVal data "lng") = some lng)
    (hin : is_point_in_india lat lng = true)
    (hs : fieldVal data "state" = PyVal.str s)
    (hci : fieldVal data "city" = PyVal.str ci)
    (hlo : fieldVal data "locality" = PyVal.str lo)
    (hco : fieldVal data "contact" = PyVal.str co)
    (hc : fieldVal data "category" = PyVal.str c)
    (hcv : validCategories.contains c = true) :
    create_marker now st (some data) =
      (CreateOutcome.created
        { id := st.nextId, lat := lat, lng := lng, state := pyStrip s,
          city := pyStrip ci, locality := pyStrip lo, category := c,
          contact := pyStrip co, is_active := true, created_at := now },
       { st with
          markers := st.markers ++
            [{ id := st.nextId, lat := lat, lng := lng, state := pyStrip s,
               city := pyStrip ci, locality := pyStrip lo, category := c,
               contact := pyStrip co, is_active := true, created_at := now }],
          nextId := st.nextId + 1 }) := by
  have h0 : (missingFields data).isEmpty = true := by rw [hm]; rfl
  have hcat : pyValInCategories (fieldVal data "category") = true := by
    rw [hc]; simpa [pyValInCategories] using hcv
  simp only [create_marker, h0, not_true_eq_false, if_false, hla, hln, hin, hcat,
    hs, hci, hlo, hco, hc, pyValInCategories, hcv]

/-! ## Route-level helper lemmas -/

theorem postMarkersRoute_badRequest (u : UserRec) (now : Nat) (st : Store)
    (body : Option (List (String × PyVal))) (msg : String)
    (hadmin : u.is_admin = true)
    (h : (create_marker now st body).1 = CreateOutcome.badRequest msg) :
    postMarkersRoute (some u) now st body = (400, (create_marker now st body).2) := by
  have hpair : create_marker now st body =
      (CreateOutcome.badRequest msg, (create_marker now st body).2) := by
    rw [← h]
  simp only [postMarkersRoute, hadmin, not_true_eq_false, if_false]
  rw [hpair]

theorem postMarkersRoute_created (u : UserRec) (now : Nat) (st : Store)
    (body : Option (List (String × PyVal))) (m : Marker)
    (hadmin : u.is_admin = true)
    (h : (create_marker now st body).1 = CreateOutcome.created m) :
    postMarkersRoute (some u) now st body = (201, (create_marker now st body).2) := by
  have hpair : create_marker now st body =
      (CreateOutcome.created m, (create_marker now st body).2) := by
    rw [← h]
  simp only [postMarkersRoute, hadmin, not_true_eq_false, if_false]
  rw [hpair]

/-! ## Concrete records used by witnesses -/

def adminUser : UserRec :=
  { id := 1, username := "admin",
    password_hash := generate_password_hash "admin123", role := "admin" }

def regularUser : UserRec :=
  { id := 2, username := "user",
    password_hash := generate_password_hash "user123", role := "user" }

def emptyStore : Store := { markers := [], nextId := 1 }

/-! ## C1 -/

/-- C1: for every POST `/api/markers` object body, marker-creation validation
applies exactly four rules in this order, short-circuiting at the first
failure with HTTP 400: (1) missing required fields, with the error listing
exactly the absent ones among `lat, lng, state, city, locality, category,
contact`; (2) unparsable `lat`/`lng`; (3) point outside the India bounding
box; (4) category not in `large`/`small`/`devices`, with the error naming
the valid categories. -/
theorem C1_create_validation_cascade (now : Nat) (st : Store)
    (data : List (String × PyVal)) (u : UserRec) (hadmin : u.is_admin = true) :
    (∀ f, f ∈ missingFields data ↔ f ∈ requiredFields ∧ findField data f = none) ∧
    (missingFields data ≠ [] →
      (create_marker now st (some data)).1 =
        CreateOutcome.badRequest
          ("Missing required fields: " ++ String.intercalate ", " (missingFields data)) ∧
      (postMarkersRoute (some u) now st (some data)).1 = 400) ∧
    (missingFields data = [] →
      (pyFloat? (fieldVal data "lat") = none ∨ pyFloat? (fieldVal data "lng") = none) →
      (create_marker now st (some data)).1 =
        CreateOutcome.badRequest "Invalid coordinates: lat and lng must be numbers" ∧
      (postMarkersRoute (some u) now st (some data)).1 = 400) ∧
    (∀ lat lng : ℚ, missingFields data = [] →
      pyFloat? (fieldVal data "lat") = some lat →
      pyFloat? (fieldVal data "lng") = some lng →
      is_point_in_india lat lng = false →
      (create_marker now st (some data)).1 =
        CreateOutcome.badRequest "Location must be within India boundaries" ∧
      (postMarkersRoute (some u) now st (some data)).1 = 400) ∧
    (∀ lat lng : ℚ, missingFields data = [] →
      pyFloat? (fieldVal data "lat") = some lat →
      pyFloat? (fieldVal data "lng") = some lng →
      is_point_in_india lat lng = true →
      pyValInCategories (fieldVal data "category") = false →
      (create_marker now st (some data)).1 =
        CreateOutcome.badRequest
          ("Invalid category. Must be one of: " ++ String.intercalate ", " validCategories) ∧
      (postMarkersRoute (some u) now st (some data)).1 = 400) := by
  refine ⟨?_, ?_, ?_, ?_, ?_⟩
  · intro f
    simp [missingFields, List.mem_filter, Option.isNone_iff_eq_none]
  · intro hm
    have h := create_marker_missing now st data hm
    refine ⟨by rw [h], ?_⟩
    rw [postMarkersRoute_badRequest u now st (some data) _ hadmin (by rw [h])]
  · intro hm hc
    have h := create_marker_badcoords now st data hm hc
    refine ⟨by rw [h], ?_⟩
    rw [postMarkersRoute_badRequest u now st (some data) _ hadmin (by rw [h])]
  · intro lat lng hm hla hln hout
    have h := create_marker_outside now st data lat lng hm hla hln hout
    refine ⟨by rw [h], ?_⟩
    rw [postMarkersRoute_badRequest u now st (some data) _ hadmin (by rw [h])]
  · intro lat lng hm hla hln hin hcat
    have h := create_marker_badcat now st data lat lng hm hla hln hin hcat
    refine ⟨by rw [h], ?_⟩
    rw [postMarkersRoute_badRequest u now st (some data) _ hadmin (by rw [h])]

def c1data : List (String × PyVal) :=
  [("lat", PyVal.num (mkRat 20 1)), ("lng", PyVal.num (mkRat 77 1))]

/-- Witness for C1 at a concrete body missing five fields. -/
theorem C1_create_validation_cascade_witness :
    adminUser.is_admin = true ∧ missingFields c1data ≠ [] ∧
    ((create_marker 0 emptyStore (some c1data)).1 =
      CreateOutcome.badRequest
        ("Missing required fields: " ++ String.intercalate ", " (missingFields c1data)) ∧
     (postMarkersRoute (some adminUser) 0 emptyStore (some c1data)).1 = 400) :=
  ⟨by decide, by decide,
    (C1_create_validation_cascade 0 emptyStore c1data adminUser (by decide)).2.1 (by decide)⟩

/-! ## C2 -/

/-- C2: every create payload with all seven fields present, parseable
in-bounds coordinates, a valid category, and string-typed text fields yields
201 with a record whose fields are the inputs with strings stripped of
surrounding whitespace, plus the freshly assigned id, `is_active = true` and
the creation timestamp; exactly that record is appended to the store, and
`to_dict` serializes it verbatim. -/
theorem C2_create_success_persists (now : Nat) (st : Store)
    (data : List (String × PyVal)) (lat lng : ℚ) (s ci lo co c : String)
    (u : UserRec) (hadmin : u.is_admin = true)
    (hm : missingFields data = [])
    (hla : pyFloat? (fieldVal data "lat") = some lat)
    (hln : pyFloat? (fieldVal data "lng") = some lng)
    (hin : is_point_in_india lat lng = true)
    (hs : fieldVal data "state" = PyVal.str s)
    (hci : fieldVal data "city" = PyVal.str ci)
    (hlo : fieldVal data "locality" = PyVal.str lo)
    (hco : fieldVal data "contact" = PyVal.str co)
    (hc : fieldVal data "category" = PyVal.str c)
    (hcv : validCategories.contains c = true) :
    ∃ m : Marker,
      create_marker now st (some data) =
        (CreateOutcome.created m,
         { st with markers := st.markers ++ [m], nextId := st.nextId + 1 }) ∧
      postMarkersRoute (some u) now st (some data) =
        (201, { st with markers := st.markers ++ [m], nextId := st.nextId + 1 }) ∧
      m.id = st.nextId ∧ m.lat = lat ∧ m.lng = lng ∧
      m.state = pyStrip s ∧ m.city = pyStrip ci ∧ m.locality = pyStrip lo ∧
      m.category = c ∧ m.contact = pyStrip co ∧
      m.is_active = true ∧ m.created_at = now ∧
      m.to_dict =
        { id := st.nextId, lat := lat, lng := lng, state := pyStrip s,
          city := pyStrip ci, locality := pyStrip lo, category := c,
          contact := pyStrip co, is_active := true, created_at := some now } := by
  have h := create_marker_success now st data lat lng s ci lo co c hm hla hln hin hs hci hlo hco hc hcv
  refine ⟨_, h, ?_, rfl, rfl, rfl, rfl, rfl, rfl, rfl, rfl, rfl, rfl, rfl⟩
  have h201 := postMarkersRoute_created u now st (some data) _ hadmin (by rw [h])
  rw [h201, h]

def c2data : List (String × PyVal) :=
  [("lat", PyVal.num (mkRat 185 10)), ("lng", PyVal.num (mkRat 739 10)),
   ("state", PyVal.str " Maharashtra "), ("city", PyVal.str "Pune"),
   ("locality", PyVal.str " Kothrud"), ("category", PyVal.str "devices"),
   ("contact", PyVal.str "+91 98765 43210 ")]

/-- Witness for C2 at a concrete valid payload with untrimmed strings. -/
theorem C2_create_success_persists_witness :
    (adminUser.is_admin = true ∧ missingFields c2data = [] ∧
     pyFloat? (fieldVal c2data "lat") = some (mkRat 185 10) ∧
     pyFloat? (fieldVal c2data "lng") = some (mkRat 739 10) ∧
     is_point_in_india (mkRat 185 10) (mkRat 739 10) = true ∧
     fieldVal c2data "state" = PyVal.str " Maharashtra " ∧
     fieldVal c2data "city" = PyVal.str "Pune" ∧
     fieldVal c2data "locality" = PyVal.str " Kothrud" ∧
     fieldVal c2data "contact" = PyVal.str "+91 98765 43210 " ∧
     fieldVal c2data "category" = PyVal.str "devices" ∧
     validCategories.contains "devices" = true) ∧
    (∃ m : Marker,
      create_marker 7 emptyStore (some c2data) =
        (CreateOutcome.created m,
         { emptyStore with markers := emptyStore.markers ++ [m],
                           nextId := emptyStore.nextId + 1 }) ∧
      postMarkersRoute (some adminUser) 7 emptyStore (some c2data) =
        (201, { emptyStore with markers := emptyStore.markers ++ [m],
                                nextId := emptyStore.nextId + 1 }) ∧
      m.id = emptyStore.nextId ∧ m.lat = mkRat 185 10 ∧ m.lng = mkRat 739 10 ∧
      m.state = pyStrip " Maharashtra " ∧ m.city = pyStrip "Pune" ∧
      m.locality = pyStrip " Kothrud" ∧ m.category = "devices" ∧
      m.contact = pyStrip "+91 98765 43210 " ∧
      m.is_active = true ∧ m.created_at = 7 ∧
      m.to_dict =
        { id := emptyStore.nextId, lat := mkRat 185 10, lng := mkRat 739 10,
          state := pyStrip " Maharashtra ", city := pyStrip "Pune",
          locality := pyStrip " Kothrud", category := "devices",
          contact := pyStrip "+91 98765 43210 ", is_active := true,
          created_at := some 7 }) :=
  ⟨⟨by decide, by decide, by decide, by decide, by decide, by decide, by decide,
    by decide, by decide, by decide, by decide⟩,
   C2_create_success_persists 7 emptyStore c2data (mkRat 185 10) (mkRat 739 10)
     " Maharashtra " "Pune" " Kothrud" "+91 98765 43210 " "devices" adminUser
     (by decide) (by decide) (by decide) (by decide) (by decide) (by decide)
     (by decide) (by decide) (by decide) (by decide) (by decide)⟩

/-! ## C3 -/

/-- C3: an authenticated non-admin gets 403 from POST, DELETE, shutdown and
reactivate with the store left completely unchanged (denial precedes any
side effect), while authenticated GET `/api/markers` answers 200 for any
role. -/
theorem C3_non_admin_forbidden (u : UserRec) (hu : u.is_admin = false)
    (now : Nat) (st : Store) (body : Option (List (String × PyVal))) (mid : Nat) :
    postMarkersRoute (some u) now st body = (403, st) ∧
    deleteMarkerRoute (some u) st mid = (403, st) ∧
    shutdownMarkerRoute (some u) st mid = (403, st) ∧
    reactivateMarkerRoute (some u) st mid = (403, st) ∧
    (∀ v : UserRec, (getMarkersRoute (some v) st).1 = 200) := by
  refine ⟨?_, ?_, ?_, ?_, fun v => rfl⟩ <;>
    simp [postMarkersRoute, deleteMarkerRoute, shutdownMarkerRoute,
      reactivateMarkerRoute, hu]

/-- Witness for C3 at the seeded non-admin account. -/
theorem C3_non_admin_forbidden_witness :
    regularUser.is_admin = false ∧
    (postMarkersRoute (some regularUser) 0 emptyStore (some c1data) = (403, emptyStore) ∧
     deleteMarkerRoute (some regularUser) emptyStore 1 = (403, emptyStore) ∧
     shutdownMarkerRoute (some regularUser) emptyStore 1 = (403, emptyStore) ∧
     reactivateMarkerRoute (some regularUser) emptyStore 1 = (403, emptyStore) ∧
     (∀ v : UserRec, (getMarkersRoute (some v) emptyStore).1 = 200)) :=
  ⟨by decide, C3_non_admin_forbidden regularUser (by decide) 0 emptyStore (some c1data) 1⟩

/-! ## C4 -/

/-- C4: whenever marker creation fails validation (any 400 outcome), the
store after the request is exactly the store before it, and the route
answers 400. -/
theorem C4_validation_preserves_store (now : Nat) (st : Store)
    (body : Option (List (String × PyVal))) (msg : String)
    (h : (create_marker now st body).1 = CreateOutcome.badRequest msg) :
    (create_marker now st body).2 = st ∧
    (∀ u : UserRec, u.is_admin = true →
      postMarkersRoute (some u) now st body = (400, st)) := by
  have hst : (create_marker now st body).2 = st := by
    rcases body with _ | data
    · rfl
    · by_cases hm : missingFields data = []
      · rcases hla : pyFloat? (fieldVal data "lat") with _ | lat
        · rw [create_marker_badcoords now st data hm (Or.inl hla)]
        · rcases hln : pyFloat? (fieldVal data "lng") with _ | lng
          · rw [create_marker_badcoords now st data hm (Or.inr hln)]
          · by_cases hin : is_point_in_india lat lng = true
            · by_cases hcat : pyValInCategories (fieldVal data "category") = true
              · exfalso
                have h0 : (missingFields data).isEmpty = true := by rw [hm]; rfl
                revert h
                simp only [create_marker, h0, not_true_eq_false, if_false, hla, hln,
                  hin, hcat]
                rcases fieldVal data "state" with _ | s | q | b <;>
                  rcases fieldVal data "city" with _ | ci | q2 | b2 <;>
                  rcases fieldVal data "locality" with _ | lo | q3 | b3 <;>
                  rcases fieldVal data "contact" with _ | co | q4 | b4 <;>
                  rcases fieldVal data "category" with _ | c | q5 | b5 <;> simp
              · rw [create_marker_badcat now st data lat lng hm hla hln hin
                  (Bool.not_eq_true _ ▸ Bool.eq_false_iff.mpr hcat)]
            · rw [create_marker_outside now st data lat lng hm hla hln
                (Bool.eq_false_iff.mpr hin)]
      · rw [create_marker_missing now st data hm]
  refine ⟨hst, fun u hadmin => ?_⟩
  rw [postMarkersRoute_badRequest u now st body msg hadmin h, hst]

def c4data : List (String × PyVal) :=
  [("lat", PyVal.num (mkRat 40 1)), ("lng", PyVal.num (mkRat 100 1)),
   ("state", PyVal.str "S"), ("city", PyVal.str "C"),
   ("locality", PyVal.str "L"), ("category", PyVal.str "large"),
   ("contact", PyVal.str "K")]

/-- Witness for C4 at a concrete out-of-bounds payload. -/
theorem C4_validation_preserves_store_witness :
    (create_marker 0 emptyStore (some c4data)).1 =
      CreateOutcome.badRequest "Location must be within India boundaries" ∧
    ((create_marker 0 emptyStore (some c4data)).2 = emptyStore ∧
     (∀ u : UserRec, u.is_admin = true →
       postMarkersRoute (some u) 0 emptyStore (some c4data) = (400, emptyStore))) :=
  ⟨by decide, C4_validation_preserves_store 0 emptyStore (some c4data)
    "Location must be within India boundaries" (by decide)⟩

/-! ## C5 -/

/-- With pairwise distinct primary keys, erasing the first id match is the
same as filtering that id out. -/
theorem eraseP_id_eq_filter (mid : Nat) :
    ∀ l : List Marker, (l.map Marker.id).Nodup →
      l.eraseP (fun m => m.id == mid) = l.filter (fun m => m.id != mid) := by
  intro l
  induction l with
  | nil => intro _; rfl
  | cons m ms ih =>
    intro hnd
    rw [List.map_cons, List.nodup_cons] at hnd
    by_cases hmid : m.id = mid
    · have h1 : (m.id == mid) = true := by simp [hmid]
      have h2 : (m.id != mid) = false := by simp [bne, hmid]
      simp only [List.eraseP_cons, h1, cond_true, List.filter_cons, h2,
        Bool.false_eq_true, if_false]
      refine (List.filter_eq_self.mpr ?_).symm
      intro x hx
      have hxid : x.id ≠ mid := by
        intro heq
        exact hnd.1 (by rw [hmid, ← heq]; exact List.mem_map_of_mem Marker.id hx)
      simp [bne, hxid]
    · have h1 : (m.id == mid) = false := by simp [hmid]
      have h2 : (m.id != mid) = true := by simp [bne, hmid]
      simp only [List.eraseP_cons, h1, cond_false, List.filter_cons, h2, if_true]
      exact congrArg (m :: ·) (ih hnd.2)

/-- C5: for an id with no stored record, DELETE, shutdown and reactivate all
answer 404 and leave the store unchanged; for a stored id (primary keys
being pairwise distinct), DELETE removes exactly that record, answers with
the success acknowledgment (200), and a subsequent authenticated GET lists
no record with that id. -/
theorem C5_delete_semantics (st : Store) (mid : Nat)
    (hnd : (st.markers.map Marker.id).Nodup) :
    (st.markers.find? (fun m => m.id == mid) = none →
      delete_marker st mid = (DeleteOutcome.notFound, st) ∧
      shutdown_marker st mid = (UpdateOutcome.notFound, st) ∧
      reactivate_marker st mid = (UpdateOutcome.notFound, st) ∧
      (∀ u : UserRec, u.is_admin = true →
        deleteMarkerRoute (some u) st mid = (404, st) ∧
        shutdownMarkerRoute (some u) st mid = (404, st) ∧
        reactivateMarkerRoute (some u) st mid = (404, st))) ∧
    (∀ m, st.markers.find? (fun x => x.id == mid) = some m →
      (delete_marker st mid).1 = DeleteOutcome.deleted ∧
      (delete_marker st mid).2.markers = st.markers.filter (fun x => x.id != mid) ∧
      (∀ u : UserRec, u.is_admin = true →
        deleteMarkerRoute (some u) st mid = (200, (delete_marker st mid).2)) ∧
      (∀ u : UserRec, ∀ d ∈ (getMarkersRoute (some u) (delete_marker st mid).2).2,
        d.id ≠ mid)) := by
  constructor
  · intro hfind
    refine ⟨?_, ?_, ?_, fun u hadmin => ?_⟩
    · simp [delete_marker, hfind]
    · simp [shutdown_marker, hfind]
    · simp [reactivate_marker, hfind]
    · refine ⟨?_, ?_, ?_⟩ <;>
        simp [delete_marker, shutdown_marker, reactivate_marker, deleteMarkerRoute,
          shutdownMarkerRoute, reactivateMarkerRoute, hfind, hadmin]
  · intro m hfind
    have hdel : delete_marker st mid =
        (DeleteOutcome.deleted,
         { st with markers := st.markers.eraseP (fun x => x.id == mid) }) := by
      simp [delete_marker, hfind]
    have hfl := eraseP_id_eq_filter mid st.markers hnd
    refine ⟨by rw [hdel], by rw [hdel]; exact hfl, fun u hadmin => ?_, fun u d hd => ?_⟩
    · simp [deleteMarkerRoute, hadmin, hdel]
    · rw [hdel] at hd
      simp only [getMarkersRoute, hfl, List.mem_map] at hd
      obtain ⟨x, hx, rfl⟩ := hd
      have := List.of_mem_filter hx
      simpa [Marker.to_dict, bne] using this

def c5marker : Marker :=
  { id := 4, lat := mkRat 20 1, lng := mkRat 77 1, state := "S", city := "C",
    locality := "L", category := "small", contact := "K",
    is_active := true, created_at := 3 }

def c5store : Store := { markers := [c5marker], nextId := 5 }

/-- Witness for C5 on a one-row store queried for id 4 (present). -/
theorem C5_delete_semantics_witness :
    ((c5store.markers.map Marker.id).Nodup ∧
      c5store.markers.find? (fun x => x.id == 4) = some c5marker) ∧
    ((delete_marker c5store 4).1 = DeleteOutcome.deleted ∧
     (delete_marker c5store 4).2.markers = c5store.markers.filter (fun x => x.id != 4) ∧
     (∀ u : UserRec, u.is_admin = true →
       deleteMarkerRoute (some u) c5store 4 = (200, (delete_marker c5store 4).2)) ∧
     (∀ u : UserRec, ∀ d ∈ (getMarkersRoute (some u) (delete_marker c5store 4).2).2,
       d.id ≠ 4)) :=
  ⟨⟨by decide, by decide⟩,
   (C5_delete_semantics c5store 4 (by decide)).2 c5marker (by decide)⟩

/-! ## C6 -/

/-- Shutting the found row down changes exactly its `is_active` flag, and
setting it back restores the original list when the row was active. -/
theorem setActiveFirst_find_and_restore (mid : Nat) :
    ∀ (l : List Marker) (m : Marker), l.find? (fun x => x.id == mid) = some m →
      (setActiveFirst mid false l).find? (fun x => x.id == mid) =
        some { m with is_active := false } ∧
      (m.is_active = true → setActiveFirst mid true (setActiveFirst mid false l) = l) := by
  intro l
  induction l with
  | nil => intro m h; simp [List.find?] at h
  | cons x xs ih =>
    intro m h
    by_cases hx : (x.id == mid) = true
    · simp only [List.find?_cons, hx] at h
      obtain rfl : x = m := by injection h
      constructor
      · simp only [setActiveFirst, hx, if_true, List.find?_cons]
      · intro hact
        simp only [setActiveFirst, hx, if_true]
        have : ({ x with is_active := true } : Marker) = x := by
          cases x
          simp_all
        rw [this]
    · simp only [List.find?_cons, hx] at h
      obtain ⟨ih1, ih2⟩ := ih m h
      constructor
      · simp only [setActiveFirst, hx, Bool.false_eq_true, if_false, List.find?_cons]
        exact ih1
      · intro hact
        simp only [setActiveFirst, hx, Bool.false_eq_true, if_false]
        rw [ih2 hact]

/-- C6: on a stored active marker, shutdown flips only `is_active` to false;
reactivating the same id then returns exactly the original record and store,
both endpoints answering 200 for an admin. -/
theorem C6_shutdown_reactivate_roundtrip (st : Store) (mid : Nat) (m : Marker)
    (hfind : st.markers.find? (fun x => x.id == mid) = some m)
    (hact : m.is_active = true) :
    shutdown_marker st mid =
      (UpdateOutcome.updated { m with is_active := false },
       { st with markers := setActiveFirst mid false st.markers }) ∧
    reactivate_marker { st with markers := setActiveFirst mid false st.markers } mid =
      (UpdateOutcome.updated m, st) ∧
    (∀ u : UserRec, u.is_admin = true →
      shutdownMarkerRoute (some u) st mid =
        (200, { st with markers := setActiveFirst mid false st.markers }) ∧
      reactivateMarkerRoute (some u)
        { st with markers := setActiveFirst mid false st.markers } mid = (200, st)) := by
  obtain ⟨hfind2, hrest⟩ := setActiveFirst_find_and_restore mid st.markers m hfind
  have hshut : shutdown_marker st mid =
      (UpdateOutcome.updated { m with is_active := false },
       { st with markers := setActiveFirst mid false st.markers }) := by
    simp [shutdown_marker, hfind]
  have hreact : reactivate_marker { st with markers := setActiveFirst mid false st.markers } mid =
      (UpdateOutcome.updated m, st) := by
    simp only [reactivate_marker, hfind2]
    rw [show setActiveFirst mid true (setActiveFirst mid false st.markers) = st.markers
      from hrest hact]
    cases m
    simp_all
  refine ⟨hshut, hreact, fun u hadmin => ⟨?_, ?_⟩⟩
  · simp [shutdownMarkerRoute, hadmin, hshut]
  · simp [reactivateMarkerRoute, hadmin, hreact]

def c6marker : Marker :=
  { id := 9, lat := mkRat 19 1, lng := mkRat 75 1, state := "Maharashtra",
    city := "Pune", locality := "Kothrud", category := "large",
    contact := "+91 11111 11111", is_active := true, created_at := 2 }

def c6store : Store := { markers := [c6marker], nextId := 10 }

/-- Witness for C6 on a one-row store holding an active marker. -/
theorem C6_shutdown_reactivate_roundtrip_witness :
    (c6store.markers.find? (fun x => x.id == 9) = some c6marker ∧
      c6marker.is_active = true) ∧
    (shutdown_marker c6store 9 =
      (UpdateOutcome.updated { c6marker with is_active := false },
       { c6store with markers := setActiveFirst 9 false c6store.markers }) ∧
     reactivate_marker { c6store with markers := setActiveFirst 9 false c6store.markers } 9 =
      (UpdateOutcome.updated c6marker, c6store) ∧
     (∀ u : UserRec, u.is_admin = true →
       shutdownMarkerRoute (some u) c6store 9 =
         (200, { c6store with markers := setActiveFirst 9 false c6store.markers }) ∧
       reactivateMarkerRoute (some u)
         { c6store with markers := setActiveFirst 9 false c6store.markers } 9 =
         (200, c6store))) :=
  ⟨⟨by decide, by decide⟩,
   C6_shutdown_reactivate_roundtrip c6store 9 c6marker (by decide) (by decide)⟩

/-! ## C7 -/

/-- Inversion of a successful create: the persisted marker passed the
bounding-box check, is created active, and is exactly the appended row. -/
theorem create_marker_created_inv (now : Nat) (st : Store)
    (body : Option (List (String × PyVal))) (m : Marker) (st' : Store)
    (h : create_marker now st body = (CreateOutcome.created m, st')) :
    is_point_in_india m.lat m.lng = true ∧ m.is_active = true ∧
      st' = { st with markers := st.markers ++ [m], nextId := st.nextId + 1 } := by
  rcases body with _ | data
  · simp [create_marker] at h
  · simp only [create_marker] at h
    split at h
    · simp at h
    · split at h
      · split at h
        · simp at h
        · split at h
          · simp at h
          · split at h
            · simp only [Prod.mk.injEq, CreateOutcome.created.injEq] at h
              obtain ⟨rfl, rfl⟩ := h
              refine ⟨?_, rfl, rfl⟩
              simp_all
            · simp at h
      · simp at h

/-- Any ±0.02-degree jitter around the Pune base point stays inside the
India bounding box. -/
theorem jitter_in_india (ja jb : ℚ)
    (h1 : mkRat (-2) 100 ≤ ja) (h2 : ja ≤ mkRat 2 100)
    (h3 : mkRat (-2) 100 ≤ jb) (h4 : jb ≤ mkRat 2 100) :
    is_point_in_india (base_lat + ja) (base_lng + jb) = true := by
  rw [Rat.mkRat_eq_div] at h1 h2 h3 h4
  simp only [is_point_in_india, INDIA_BOUNDS, base_lat, base_lng,
    Rat.mkRat_eq_div, Bool.and_eq_true, decide_eq_true_eq]
  norm_num at *
  refine ⟨⟨by linarith, by linarith⟩, by linarith, by linarith⟩

/-- C7: every marker the system stores satisfies the bounding-box invariant
at creation time: a marker persisted by a successful create passed
`is_point_in_india`, and every marker `seed_demo_markers` inserts (jitter at
most ±0.02 degrees per axis around the Pune base point) lies inside the box. -/
theorem C7_bounding_box_invariant :
    (∀ (now : Nat) (st : Store) (body : Option (List (String × PyVal)))
       (m : Marker) (st' : Store),
      create_marker now st body = (CreateOutcome.created m, st') →
      is_point_in_india m.lat m.lng = true) ∧
    (∀ (j1 j2 j3 j4 : ℚ) (now : Nat) (st : Store),
      mkRat (-2) 100 ≤ j1 → j1 ≤ mkRat 2 100 →
      mkRat (-2) 100 ≤ j2 → j2 ≤ mkRat 2 100 →
      mkRat (-2) 100 ≤ j3 → j3 ≤ mkRat 2 100 →
      mkRat (-2) 100 ≤ j4 → j4 ≤ mkRat 2 100 →
      ∀ m ∈ (seed_demo_markers j1 j2 j3 j4 now st).markers,
        m ∈ st.markers ∨ is_point_in_india m.lat m.lng = true) := by
  constructor
  · intro now st body m st' h
    exact (create_marker_created_inv now st body m st' h).1
  · intro j1 j2 j3 j4 now st ha1 ha2 hb1 hb2 hc1 hc2 hd1 hd2 m hm
    by_cases hl : (st.markers.length == 0) = true
    · rw [seed_demo_markers, if_pos hl] at hm
      have : st.markers = [] := List.eq_nil_of_length_eq_zero (by simpa using hl)
      rw [this] at hm
      simp only [List.nil_append, List.mem_cons, List.not_mem_nil, or_false,
        List.mem_singleton] at hm
      rcases hm with rfl | rfl
      · exact Or.inr (jitter_in_india j1 j2 ha1 ha2 hb1 hb2)
      · exact Or.inr (jitter_in_india j3 j4 hc1 hc2 hd1 hd2)
    · rw [seed_demo_markers, if_neg hl] at hm
      exact Or.inl hm

/-- Witness for C7 at zero jitter on the empty store. -/
theorem C7_bounding_box_invariant_witness :
    (mkRat (-2) 100 ≤ (0 : ℚ) ∧ (0 : ℚ) ≤ mkRat 2 100) ∧
    (∀ m ∈ (seed_demo_markers 0 0 0 0 3 emptyStore).markers,
      m ∈ emptyStore.markers ∨ is_point_in_india m.lat m.lng = true) :=
  ⟨⟨by decide, by decide⟩,
   (C7_bounding_box_invariant).2 0 0 0 0 3 emptyStore
     (by decide) (by decide) (by decide) (by decide)
     (by decide) (by decide) (by decide) (by decide)⟩

/-! ## C8 -/

def c8data : List (String × PyVal) :=
  [("lat", PyVal.num (mkRat 20 1)), ("lng", PyVal.num (mkRat 77 1)),
   ("state", PyVal.str ""), ("city", PyVal.str "Pune"),
   ("locality", PyVal.str "Kothrud"), ("category", PyVal.str "large"),
   ("contact", PyVal.str "x")]

def c8marker : Marker :=
  { id := 1, lat := mkRat 20 1, lng := mkRat 77 1, state := "", city := "Pune",
    locality := "Kothrud", category := "large", contact := "x",
    is_active := true, created_at := 0 }

/-- Counterexample to C8: a payload whose `state` is the empty string passes
all four validation rules; the create succeeds (201 for an admin) and the
persisted marker's `state` is `""`. -/
theorem C8_counterexample_empty_state_accepted :
    create_marker 0 emptyStore (some c8data) =
      (CreateOutcome.created c8marker,
       { emptyStore with markers := [c8marker], nextId := 2 }) ∧
    postMarkersRoute (some adminUser) 0 emptyStore (some c8data) =
      (201, { emptyStore with markers := [c8marker], nextId := 2 }) ∧
    c8marker.state = "" ∧
    c8marker ∈ (postMarkersRoute (some adminUser) 0 emptyStore (some c8data)).2.markers :=
  ⟨by decide, by decide, rfl, by decide⟩

/-- C8 (amended): every marker persisted by a successful create has `state`,
`city`, `locality`, `contact` equal to the corresponding input strings
stripped of surrounding whitespace — but possibly empty, since emptiness is
never checked. -/
theorem C8_amended_fields_stripped_possibly_empty (now : Nat) (st : Store)
    (data : List (String × PyVal)) (m : Marker) (st' : Store)
    (s ci lo co : String)
    (hcreate : create_marker now st (some data) = (CreateOutcome.created m, st'))
    (hs : fieldVal data "state" = PyVal.str s)
    (hci : fieldVal data "city" = PyVal.str ci)
    (hlo : fieldVal data "locality" = PyVal.str lo)
    (hco : fieldVal data "contact" = PyVal.str co) :
    m.state = pyStrip s ∧ m.city = pyStrip ci ∧
    m.locality = pyStrip lo ∧ m.contact = pyStrip co := by
  simp only [create_marker] at hcreate
  split at hcreate
  · simp at hcreate
  · split at hcreate
    · split at hcreate
      · simp at hcreate
      · split at hcreate
        · simp at hcreate
        · split at hcreate
          · simp only [Prod.mk.injEq, CreateOutcome.created.injEq] at hcreate
            obtain ⟨rfl, rfl⟩ := hcreate
            simp_all
          · simp at hcreate
    · simp at hcreate

def c8wdata : List (String × PyVal) :=
  [("lat", PyVal.num (mkRat 20 1)), ("lng", PyVal.num (mkRat 77 1)),
   ("state", PyVal.str "   "), ("city", PyVal.str " Pune "),
   ("locality", PyVal.str "K"), ("category", PyVal.str "small"),
   ("contact", PyVal.str " c ")]

def c8wmarker : Marker :=
  { id := 1, lat := mkRat 20 1, lng := mkRat 77 1, state := "", city := "Pune",
    locality := "K", category := "small", contact := "c",
    is_active := true, created_at := 4 }

/-- Witness for the amended C8 at a whitespace-only `state`. -/
theorem C8_amended_fields_stripped_possibly_empty_witness :
    (create_marker 4 emptyStore (some c8wdata) =
      (CreateOutcome.created c8wmarker,
       { emptyStore with markers := [c8wmarker], nextId := 2 }) ∧
     fieldVal c8wdata "state" = PyVal.str "   " ∧
     fieldVal c8wdata "city" = PyVal.str " Pune " ∧
     fieldVal c8wdata "locality" = PyVal.str "K" ∧
     fieldVal c8wdata "contact" = PyVal.str " c ") ∧
    (c8wmarker.state = pyStrip "   " ∧ c8wmarker.city = pyStrip " Pune " ∧
     c8wmarker.locality = pyStrip "K" ∧ c8wmarker.contact = pyStrip " c ") :=
  ⟨⟨by decide, by decide, by decide, by decide, by decide⟩,
   C8_amended_fields_stripped_possibly_empty 4 emptyStore c8wdata c8wmarker
     { emptyStore with markers := [c8wmarker], nextId := 2 }
     "   " " Pune " "K" " c " (by decide) (by decide) (by decide) (by decide) (by decide)⟩

/-! ## C9 -/

/-- C9: seeding is idempotent — `seed_demo_markers` inserts its two rows only
into an empty marker table and `seed_users` its two accounts only into an
empty user table, so a second run changes nothing and a run on a non-empty
collection changes nothing. -/
theorem C9_seeding_idempotent (j1 j2 j3 j4 j5 j6 j7 j8 : ℚ) (now now2 : Nat)
    (st : Store) (ust : UserStore) :
    seed_demo_markers j5 j6 j7 j8 now2 (seed_demo_markers j1 j2 j3 j4 now st) =
      seed_demo_markers j1 j2 j3 j4 now st ∧
    (st.markers = [] → (seed_demo_markers j1 j2 j3 j4 now st).markers.length = 2) ∧
    (st.markers ≠ [] → seed_demo_markers j1 j2 j3 j4 now st = st) ∧
    seed_users (seed_users ust) = seed_users ust ∧
    (ust.users = [] → (seed_users ust).users.length = 2) ∧
    (ust.users ≠ [] → seed_users ust = ust) := by
  by_cases hm : st.markers = [] <;> by_cases hu : ust.users = [] <;>
    simp_all [seed_demo_markers, seed_users, List.length_eq_zero]

/-- Witness for C9 seeding the empty store and user table. -/
theorem C9_seeding_idempotent_witness :
    (emptyStore.markers = [] ∧ (⟨[], 1⟩ : UserStore).users = []) ∧
    (seed_demo_markers 0 0 0 0 3 emptyStore).markers.length = 2 ∧
    (seed_users ⟨[], 1⟩).users.length = 2 :=
  ⟨⟨rfl, rfl⟩,
   (C9_seeding_idempotent 0 0 0 0 0 0 0 0 3 3 emptyStore ⟨[], 1⟩).2.1 rfl,
   (C9_seeding_idempotent 0 0 0 0 0 0 0 0 3 4 emptyStore ⟨[], 1⟩).2.2.2.2.1 rfl⟩

/-! ## C10 -/

/-- C10: a POST `/api/markers` whose body is the JSON literal `null` does not
reach the 400 validation path: the membership test raises a `TypeError`,
surfacing as HTTP 500, with the store untouched. -/
theorem C10_null_body_is_500 (u : UserRec) (hadmin : u.is_admin = true)
    (now : Nat) (st : Store) :
    create_marker now st none = (CreateOutcome.serverError, st) ∧
    postMarkersRoute (some u) now st none = (500, st) ∧
    (postMarkersRoute (some u) now st none).1 ≠ 400 := by
  refine ⟨rfl, ?_, ?_⟩ <;> simp [postMarkersRoute, hadmin, create_marker]

/-- Witness for C10 with the seeded admin account. -/
theorem C10_null_body_is_500_witness :
    adminUser.is_admin = true ∧
    (create_marker 0 emptyStore none = (CreateOutcome.serverError, emptyStore) ∧
     postMarkersRoute (some adminUser) 0 emptyStore none = (500, emptyStore) ∧
     (postMarkersRoute (some adminUser) 0 emptyStore none).1 ≠ 400) :=
  ⟨by decide, C10_null_body_is_500 adminUser (by decide) 0 emptyStore⟩
